import Mathlib

/-!
Verification of `ddpg/model.py`: the Actor and Critic networks of a DDPG
agent, shallowly embedded in Lean 4.

Modelling conventions:
* Python dict config objects become the inductive `PyVal`; lookups return
  `Except PyErr`, mirroring `KeyError` / `IndexError` / `TypeError`.
* Tensors are shape-carrying structures over `ℝ` with total entry
  functions; shape errors raised by torch become `.dimMismatch`.
* torch's global pseudo-random generator becomes an explicit `RNG` value
  threaded through construction; `torch.manual_seed` replaces it by a
  state derived from the seed alone.  The concrete generator is a model
  of torch's: a deterministic function of seed and draw counter whose
  unit draws lie in [0, 1).
* `nn.Linear(m, n)` rejects negative sizes, stores `weight` of shape
  `(n, m)` — out_features × in_features, the torch layout — and default
  initializes weight and bias uniformly in ±1/√in_features (bound 0 when
  in_features = 0, matching torch's zero-fan-in guard).
* `nn.BatchNorm1d(n)`: affine parameters γ = 1, β = 0, running mean 0,
  running variance 1, ε = 1e-5, momentum 0.1.  Training mode normalizes
  by batch statistics and updates the running statistics (with unbiased
  variance); evaluation mode uses the frozen running statistics.
  Training on a batch of fewer than two rows raises (torch's "Expected
  more than 1 value per channel" error).
* `net.train()` / `net.eval()` become an explicit `Mode` argument to the
  forward functions, which return the (possibly updated) network next to
  the output.
-/

namespace DDPG

/-- Python values as they appear in the configuration dictionaries. -/
inductive PyVal where
  | vint (n : ℤ)
  | vnone
  | vstr (s : String)
  | vlist (xs : List PyVal)
  | vdict (entries : List (String × PyVal))

/-- The Python/torch exceptions the model distinguishes. -/
inductive PyErr where
  | keyError (k : String)
  | indexError
  | typeError
  | runtimeError
  | valueError
  | dimMismatch
  deriving DecidableEq

/-- `d[k]` on a Python dict: `KeyError` when absent, `TypeError` when the
subscripted value is not a dict. -/
def dictGet (v : PyVal) (k : String) : Except PyErr PyVal :=
  match v with
  | .vdict es =>
    match es.find? (fun e => e.1 == k) with
    | some e => .ok e.2
    | none => .error (.keyError k)
  | _ => .error .typeError

/-- `xs[i]` on a Python list: `IndexError` when out of range. -/
def listGet (v : PyVal) (i : ℕ) : Except PyErr PyVal :=
  match v with
  | .vlist xs =>
    match xs.get? i with
    | some x => .ok x
    | none => .error .indexError
  | _ => .error .typeError

/-- Python `+` as it occurs in `fcs1_units+action_size`: addition on two
ints, concatenation on two strings, `TypeError` otherwise. -/
def pyAdd (a b : PyVal) : Except PyErr PyVal :=
  match a, b with
  | .vint m, .vint n => .ok (.vint (m + n))
  | .vstr s, .vstr t => .ok (.vstr (s ++ t))
  | _, _ => .error .typeError

/-- Model of torch's global pseudo-random generator: a seed plus a draw
counter; `val g k` is the k-th upcoming unit draw. -/
structure RNG where
  seed : ℕ
  ctr : ℕ
  deriving DecidableEq

/-- Concrete mixing function standing in for torch's generator kernel: any
deterministic function of seed and counter with range below 2^32 serves
the model. -/
def mix (s k : ℕ) : ℕ :=
  (2654435761 * (s + 1) + 2246822519 * (k + 1) + 3266489917 * (s + 1) * (k + 1)) % 4294967296

/-- The k-th upcoming unit draw, a rational in [0, 1). -/
def RNG.val (g : RNG) (k : ℕ) : ℚ := (mix g.seed (g.ctr + k) : ℚ) / 4294967296

/-- Advance the generator past `n` consumed draws. -/
def RNG.skip (g : RNG) (n : ℕ) : RNG := ⟨g.seed, g.ctr + n⟩

/-- `torch.manual_seed`: reset the global generator to a state depending
only on the seed. -/
def manualSeed (s : ℤ) : RNG := ⟨s.natAbs, 0⟩

/-- `if seed is not None: torch.manual_seed(seed)` — `None` keeps the
ambient generator, an integer reseeds it, anything else raises inside
`manual_seed`'s int coercion. -/
def seedGen (seedV : PyVal) (g : RNG) : Except PyErr RNG :=
  match seedV with
  | .vnone => .ok g
  | .vint s => .ok (manualSeed s)
  | _ => .error .typeError

/-- A 2-D tensor: `entry b j` is row `b`, column `j`. -/
structure Tensor2 where
  rows : ℕ
  cols : ℕ
  entry : ℕ → ℕ → ℝ

/-- A 1-D tensor. -/
structure Tensor1 where
  len : ℕ
  entry : ℕ → ℝ

def onesT (n : ℕ) : Tensor1 := ⟨n, fun _ => 1⟩

def zerosT (n : ℕ) : Tensor1 := ⟨n, fun _ => 0⟩

/-- One uniform draw in [lo, hi): the affine image of a unit draw. -/
def udraw (lo hi : ℝ) (u : ℚ) : ℝ := lo + (u : ℝ) * (hi - lo)

/-- `Tensor.uniform_(lo, hi)` on a 2-D tensor: refill every entry with a
fresh uniform draw, consuming rows·cols draws from the generator. -/
def uniformFill (t : Tensor2) (lo hi : ℝ) (g : RNG) : Tensor2 × RNG :=
  (⟨t.rows, t.cols, fun j i => udraw lo hi (g.val (j * t.cols + i))⟩,
   g.skip (t.rows * t.cols))

/-- `nn.Linear`: the weight tensor has the torch layout
(out_features, in_features). -/
structure Linear where
  inFeatures : ℕ
  outFeatures : ℕ
  weight : Tensor2
  bias : Tensor1

/-- Default `nn.Linear(inF, outF)` initialization: weight and bias drawn
uniformly in ±1/√in_features (torch's kaiming bound for a = √5), the
weight's outF·inF draws first, then the bias's outF draws. -/
noncomputable def linearNew (inF outF : ℕ) (g : RNG) : Linear × RNG :=
  let bound : ℝ := if inF = 0 then 0 else 1 / Real.sqrt inF
  ({ inFeatures := inF
     outFeatures := outF
     weight := ⟨outF, inF, fun j i => udraw (-bound) bound (g.val (j * inF + i))⟩
     bias := ⟨outF, fun j => udraw (-bound) bound (g.val (outF * inF + j))⟩ },
   g.skip (outF * inF + outF))

/-- `nn.Linear` applied to the torch-level size arguments: non-integers
raise `TypeError`, negative sizes raise at tensor creation; sizes zero
are accepted (the resulting weight is an empty tensor). -/
noncomputable def linearV (a b : PyVal) (g : RNG) : Except PyErr (Linear × RNG) :=
  match a, b with
  | .vint m, .vint n =>
    if m < 0 ∨ n < 0 then .error .runtimeError
    else .ok (linearNew m.toNat n.toNat g)
  | _, _ => .error .typeError

/-- Batched linear forward `x @ W.T + b`: raises when the trailing
dimension of the input disagrees with in_features. -/
def Linear.forward (l : Linear) (x : Tensor2) : Except PyErr Tensor2 :=
  if x.cols = l.inFeatures then
    .ok ⟨x.rows, l.outFeatures, fun b j =>
      (∑ i ∈ Finset.range l.inFeatures, l.weight.entry j i * x.entry b i) + l.bias.entry j⟩
  else .error .dimMismatch

/-- `nn.BatchNorm1d` state: affine parameters γ, β and the running
statistics mutated by training-mode forward passes. -/
structure BatchNorm1d where
  numFeatures : ℕ
  weight : Tensor1
  bias : Tensor1
  runningMean : Tensor1
  runningVar : Tensor1

noncomputable def bnEps : ℝ := 1 / 100000

noncomputable def bnMomentum : ℝ := 1 / 10

/-- `nn.BatchNorm1d(n)` as constructed: γ = 1, β = 0, running mean 0,
running variance 1. -/
def batchNormNew (n : ℕ) : BatchNorm1d := ⟨n, onesT n, zerosT n, zerosT n, onesT n⟩

/-- `nn.BatchNorm1d` applied to the torch-level size argument. -/
def batchNormV (a : PyVal) : Except PyErr BatchNorm1d :=
  match a with
  | .vint n => if n < 0 then .error .runtimeError else .ok (batchNormNew n.toNat)
  | _ => .error .typeError

/-- The training/evaluation flag toggled by `net.train()` / `net.eval()`. -/
inductive Mode where
  | train
  | eval
  deriving DecidableEq

/-- Batch mean of column `j`. -/
noncomputable def colMean (x : Tensor2) (j : ℕ) : ℝ :=
  (∑ b ∈ Finset.range x.rows, x.entry b j) / x.rows

/-- Biased batch variance of column `j` (the statistic used to normalize). -/
noncomputable def colVar (x : Tensor2) (j : ℕ) : ℝ :=
  (∑ b ∈ Finset.range x.rows, (x.entry b j - colMean x j) ^ 2) / x.rows

/-- `BatchNorm1d.forward`.  Training mode normalizes with batch statistics
and returns the layer with updated running statistics (unbiased variance,
momentum 0.1) and raises on batches of fewer than two rows; evaluation
mode normalizes with the frozen running statistics and returns the layer
unchanged. -/
noncomputable def BatchNorm1d.forward (bn : BatchNorm1d) (mode : Mode) (x : Tensor2) :
    Except PyErr (Tensor2 × BatchNorm1d) :=
  if x.cols = bn.numFeatures then
    match mode with
    | .eval =>
      .ok (⟨x.rows, x.cols, fun b j =>
        (x.entry b j - bn.runningMean.entry j) / Real.sqrt (bn.runningVar.entry j + bnEps)
          * bn.weight.entry j + bn.bias.entry j⟩, bn)
    | .train =>
      if x.rows ≤ 1 then .error .valueError
      else
        .ok (⟨x.rows, x.cols, fun b j =>
          (x.entry b j - colMean x j) / Real.sqrt (colVar x j + bnEps)
            * bn.weight.entry j + bn.bias.entry j⟩,
        { bn with
          runningMean := ⟨bn.runningMean.len, fun j =>
            (1 - bnMomentum) * bn.runningMean.entry j + bnMomentum * colMean x j⟩
          runningVar := ⟨bn.runningVar.len, fun j =>
            (1 - bnMomentum) * bn.runningVar.entry j
              + bnMomentum * (colVar x j * x.rows / ((x.rows : ℝ) - 1))⟩ })
  else .error .dimMismatch

/-- `F.relu`, elementwise. -/
def relu (x : Tensor2) : Tensor2 := ⟨x.rows, x.cols, fun b j => max (x.entry b j) 0⟩

/-- `torch.tanh`, elementwise. -/
noncomputable def tanhT (x : Tensor2) : Tensor2 :=
  ⟨x.rows, x.cols, fun b j => Real.tanh (x.entry b j)⟩

/-- `torch.cat(_, dim=1)`: row counts must agree exactly — no
broadcasting, no truncation. -/
def cat1 (x y : Tensor2) : Except PyErr Tensor2 :=
  if y.rows = x.rows then
    .ok ⟨x.rows, x.cols + y.cols, fun b j =>
      if j < x.cols then x.entry b j else y.entry b (j - x.cols)⟩
  else .error .dimMismatch

/-- `hidden_init(layer)` from the source:
`fan_in = layer.weight.data.size()[0]; lim = 1/np.sqrt(fan_in)`.
Note that `weight.size()[0]` is the first dimension of the torch weight
tensor, which is the layer's out_features (torch stores weight as
(out_features, in_features)). -/
noncomputable def hidden_init (layer : Linear) : ℝ × ℝ :=
  let fan_in := layer.weight.rows
  let lim : ℝ := 1 / Real.sqrt fan_in
  (-lim, lim)

/-- The Actor (policy) network: three linear stages and two batch-norm
stages, exactly the fields assigned in `Actor.__init__`. -/
structure Actor where
  fc1 : Linear
  bc1 : BatchNorm1d
  fc2 : Linear
  bc2 : BatchNorm1d
  fc3 : Linear

/-- `Actor.reset_parameters`: refill the three weight matrices in place —
the two hidden stages from `hidden_init`'s range, the final stage from
±3e-3.  Biases and batch-norm state are not touched. -/
noncomputable def Actor.reset_parameters (net : Actor) (g : RNG) : Actor × RNG :=
  let p1 := uniformFill net.fc1.weight (hidden_init net.fc1).1 (hidden_init net.fc1).2 g
  let p2 := uniformFill net.fc2.weight (hidden_init net.fc2).1 (hidden_init net.fc2).2 p1.2
  let p3 := uniformFill net.fc3.weight (-(3 / 1000)) (3 / 1000) p2.2
  ({ net with
      fc1 := { net.fc1 with weight := p1.1 }
      fc2 := { net.fc2 with weight := p2.1 }
      fc3 := { net.fc3 with weight := p3.1 } }, p3.2)

/-- `Actor.__init__(config)`, line by line: read the five config entries
(`KeyError` / `IndexError` / `TypeError` surface here), reseed the
generator when the seed is not None, build the layers in source order,
then `reset_parameters`. -/
noncomputable def Actor.build (config : PyVal) (g0 : RNG) : Except PyErr (Actor × RNG) :=
  match dictGet config "random_seed" with
  | .error e => .error e
  | .ok seedV =>
  match dictGet config "state_size" with
  | .error e => .error e
  | .ok stateV =>
  match dictGet config "action_size" with
  | .error e => .error e
  | .ok actionV =>
  match dictGet config "actor" with
  | .error e => .error e
  | .ok actorV =>
  match dictGet actorV "fc" with
  | .error e => .error e
  | .ok fcV =>
  match listGet fcV 0 with
  | .error e => .error e
  | .ok fc1V =>
  match listGet fcV 1 with
  | .error e => .error e
  | .ok fc2V =>
  match seedGen seedV g0 with
  | .error e => .error e
  | .ok g1 =>
  match linearV stateV fc1V g1 with
  | .error e => .error e
  | .ok (fc1, g2) =>
  match batchNormV fc1V with
  | .error e => .error e
  | .ok bc1 =>
  match linearV fc1V fc2V g2 with
  | .error e => .error e
  | .ok (fc2, g3) =>
  match batchNormV fc2V with
  | .error e => .error e
  | .ok bc2 =>
  match linearV fc2V actionV g3 with
  | .error e => .error e
  | .ok (fc3, g4) =>
  .ok (Actor.reset_parameters ⟨fc1, bc1, fc2, bc2, fc3⟩ g4)

/-- `Actor.forward(state)`:
`tanh(fc3(relu(bc2(fc2(relu(bc1(fc1(state))))))))`, returning the output
next to the network, whose batch-norm stages may have new running
statistics after a training-mode pass. -/
noncomputable def Actor.forward (net : Actor) (mode : Mode) (state : Tensor2) :
    Except PyErr (Tensor2 × Actor) :=
  match net.fc1.forward state with
  | .error e => .error e
  | .ok h1 =>
  match net.bc1.forward mode h1 with
  | .error e => .error e
  | .ok (n1, bc1') =>
  match net.fc2.forward (relu n1) with
  | .error e => .error e
  | .ok h2 =>
  match net.bc2.forward mode h2 with
  | .error e => .error e
  | .ok (n2, bc2') =>
  match net.fc3.forward (relu n2) with
  | .error e => .error e
  | .ok h3 => .ok (tanhT h3, { net with bc1 := bc1', bc2 := bc2' })

/-- The Critic (value) network, exactly the fields assigned in
`Critic.__init__`. -/
structure Critic where
  fcs1 : Linear
  bc1 : BatchNorm1d
  fc2 : Linear
  bc2 : BatchNorm1d
  fc3 : Linear

/-- `Critic.reset_parameters`: same two-tier weight refill as the Actor;
biases and batch-norm state untouched. -/
noncomputable def Critic.reset_parameters (net : Critic) (g : RNG) : Critic × RNG :=
  let p1 := uniformFill net.fcs1.weight (hidden_init net.fcs1).1 (hidden_init net.fcs1).2 g
  let p2 := uniformFill net.fc2.weight (hidden_init net.fc2).1 (hidden_init net.fc2).2 p1.2
  let p3 := uniformFill net.fc3.weight (-(3 / 1000)) (3 / 1000) p2.2
  ({ net with
      fcs1 := { net.fcs1 with weight := p1.1 }
      fc2 := { net.fc2 with weight := p2.1 }
      fc3 := { net.fc3 with weight := p3.1 } }, p3.2)

/-- `Critic.__init__(config)`: as for the Actor, with linear stages
(state_size → fcs1), (fcs1 + action_size → fc2), (fc2 → 1). -/
noncomputable def Critic.build (config : PyVal) (g0 : RNG) : Except PyErr (Critic × RNG) :=
  match dictGet config "random_seed" with
  | .error e => .error e
  | .ok seedV =>
  match dictGet config "state_size" with
  | .error e => .error e
  | .ok stateV =>
  match dictGet config "action_size" with
  | .error e => .error e
  | .ok actionV =>
  match dictGet config "critic" with
  | .error e => .error e
  | .ok criticV =>
  match dictGet criticV "fc" with
  | .error e => .error e
  | .ok fcV =>
  match listGet fcV 0 with
  | .error e => .error e
  | .ok fcs1V =>
  match listGet fcV 1 with
  | .error e => .error e
  | .ok fc2V =>
  match seedGen seedV g0 with
  | .error e => .error e
  | .ok g1 =>
  match linearV stateV fcs1V g1 with
  | .error e => .error e
  | .ok (fcs1, g2) =>
  match batchNormV fcs1V with
  | .error e => .error e
  | .ok bc1 =>
  match pyAdd fcs1V actionV with
  | .error e => .error e
  | .ok sumV =>
  match linearV sumV fc2V g2 with
  | .error e => .error e
  | .ok (fc2, g3) =>
  match batchNormV fc2V with
  | .error e => .error e
  | .ok bc2 =>
  match linearV fc2V (.vint 1) g3 with
  | .error e => .error e
  | .ok (fc3, g4) =>
  .ok (Critic.reset_parameters ⟨fcs1, bc1, fc2, bc2, fc3⟩ g4)

/-- `Critic.forward(state, action)`:
`fc3(relu(bc2(fc2(cat(relu(bc1(fcs1(state))), action)))))` — the final
linear output is returned with no nonlinearity. -/
noncomputable def Critic.forward (net : Critic) (mode : Mode) (state action : Tensor2) :
    Except PyErr (Tensor2 × Critic) :=
  match net.fcs1.forward state with
  | .error e => .error e
  | .ok h1 =>
  match net.bc1.forward mode h1 with
  | .error e => .error e
  | .ok (n1, bc1') =>
  match cat1 (relu n1) action with
  | .error e => .error e
  | .ok x =>
  match net.fc2.forward x with
  | .error e => .error e
  | .ok h2 =>
  match net.bc2.forward mode h2 with
  | .error e => .error e
  | .ok (n2, bc2') =>
  match net.fc3.forward (relu n2) with
  | .error e => .error e
  | .ok h3 => .ok (h3, { net with bc1 := bc1', bc2 := bc2' })

/-- The network an `Actor.__init__` call yields, when it succeeds. -/
noncomputable def Actor.built (config : PyVal) (g : RNG) : Option Actor :=
  (Actor.build config g).toOption.map Prod.fst

/-- The network a `Critic.__init__` call yields, when it succeeds. -/
noncomputable def Critic.built (config : PyVal) (g : RNG) : Option Critic :=
  (Critic.build config g).toOption.map Prod.fst

/-- A well-formed-shaped configuration dict with both role sub-configs,
a two-entry fc list each, and the given seed entry. -/
def mkConfig (ss ac : ℤ) (seedV : PyVal) (f1 f2 : ℤ) : PyVal :=
  .vdict [("state_size", .vint ss), ("action_size", .vint ac), ("random_seed", seedV),
          ("actor", .vdict [("fc", .vlist [.vint f1, .vint f2])]),
          ("critic", .vdict [("fc", .vlist [.vint f1, .vint f2])])]

/-- The configuration dict of the spec's concrete scenario. -/
def demoConfig : PyVal := mkConfig 4 2 (.vint 7) 8 8

def rng0 : RNG := ⟨0, 0⟩

/-- What `Actor.__init__` computes once the five config entries are in
hand as plain nonnegative sizes: the layers in source order, then
`reset_parameters`. -/
noncomputable def actorFromDims (ss f1 f2 ac : ℕ) (g : RNG) : Actor × RNG :=
  let q1 := linearNew ss f1 g
  let b1 := batchNormNew f1
  let q2 := linearNew f1 f2 q1.2
  let b2 := batchNormNew f2
  let q3 := linearNew f2 ac q2.2
  Actor.reset_parameters ⟨q1.1, b1, q2.1, b2, q3.1⟩ q3.2

/-- What `Critic.__init__` computes once the config entries are in hand;
`cin` is fc2's input width, the value of `fcs1_units+action_size`. -/
noncomputable def criticFromDims (ss f1 f2 cin : ℕ) (g : RNG) : Critic × RNG :=
  let q1 := linearNew ss f1 g
  let b1 := batchNormNew f1
  let q2 := linearNew cin f2 q1.2
  let b2 := batchNormNew f2
  let q3 := linearNew f2 1 q2.2
  Critic.reset_parameters ⟨q1.1, b1, q2.1, b2, q3.1⟩ q3.2

section Lemmas

/-- The generator's unit draws are nonnegative. -/
lemma RNG.val_nonneg (g : RNG) (k : ℕ) : 0 ≤ g.val k := by
  unfold RNG.val
  positivity

/-- The generator's unit draws are below one. -/
lemma RNG.val_lt_one (g : RNG) (k : ℕ) : g.val k < 1 := by
  unfold RNG.val
  rw [div_lt_one (by norm_num)]
  have h : mix g.seed (g.ctr + k) < 4294967296 := Nat.mod_lt _ (by norm_num)
  exact_mod_cast h

/-- A uniform draw from [lo, hi) stays in the closed range. -/
lemma udraw_mem (lo hi : ℝ) (u : ℚ) (h0 : 0 ≤ u) (h1 : u < 1) (hlh : lo ≤ hi) :
    lo ≤ udraw lo hi u ∧ udraw lo hi u ≤ hi := by
  have h0r : (0 : ℝ) ≤ (u : ℝ) := by exact_mod_cast h0
  have h1r : (u : ℝ) ≤ 1 := le_of_lt (by exact_mod_cast h1)
  constructor
  · have : 0 ≤ (u : ℝ) * (hi - lo) := mul_nonneg h0r (by linarith)
    simp only [udraw]
    linarith
  · have : (u : ℝ) * (hi - lo) ≤ 1 * (hi - lo) := by
      apply mul_le_mul_of_nonneg_right h1r
      linarith
    simp only [udraw]
    linarith

/-- A uniform draw from a symmetric range ±a is bounded by a in absolute
value. -/
lemma abs_udraw_le (a : ℝ) (u : ℚ) (h0 : 0 ≤ u) (h1 : u < 1) (ha : 0 ≤ a) :
    |udraw (-a) a u| ≤ a := by
  have h := udraw_mem (-a) a u h0 h1 (by linarith)
  exact abs_le.mpr ⟨h.1, h.2⟩

/-- The hyperbolic tangent is bounded by one in absolute value. -/
lemma abs_tanh_le_one (x : ℝ) : |Real.tanh x| ≤ 1 := by
  rw [Real.tanh_eq_sinh_div_cosh, abs_div, abs_of_pos (Real.cosh_pos x),
    div_le_one (Real.cosh_pos x)]
  nlinarith [Real.cosh_sq x, Real.cosh_pos x, abs_nonneg (Real.sinh x),
    sq_abs (Real.sinh x)]

/-- Dissecting a successful `nn.Linear` call: the size arguments were
nonnegative ints and the result is the default-initialized layer. -/
lemma linearV_ok {a b : PyVal} {g : RNG} {p : Linear × RNG}
    (h : linearV a b g = .ok p) :
    ∃ m n : ℤ, a = .vint m ∧ b = .vint n ∧ 0 ≤ m ∧ 0 ≤ n ∧
      p = linearNew m.toNat n.toNat g := by
  unfold linearV at h
  split at h
  next m n =>
    split at h
    · exact absurd h (by simp)
    next hneg =>
      push_neg at hneg
      exact ⟨m, n, rfl, rfl, hneg.1, hneg.2, by injection h with h; exact h.symm⟩
  next => exact absurd h (by simp_all)

/-- Dissecting a successful `nn.BatchNorm1d` call. -/
lemma batchNormV_ok {a : PyVal} {bn : BatchNorm1d} (h : batchNormV a = .ok bn) :
    ∃ n : ℤ, a = .vint n ∧ 0 ≤ n ∧ bn = batchNormNew n.toNat := by
  unfold batchNormV at h
  split at h
  next n =>
    split at h
    · exact absurd h (by simp)
    next hneg => exact ⟨n, rfl, by omega, by injection h with h; exact h.symm⟩
  next => exact absurd h (by simp_all)

/-- Dissecting a successful `Actor.__init__`: every config entry was
present and well typed, the sizes were nonnegative, and the result is the
source-order construction from those sizes. -/
lemma actor_build_ok {c : PyVal} {g0 : RNG} {p : Actor × RNG}
    (h : Actor.build c g0 = .ok p) :
    ∃ (seedV actorV fcV : PyVal) (ss ac f1 f2 : ℤ) (g1 : RNG),
      dictGet c "random_seed" = .ok seedV ∧
      dictGet c "state_size" = .ok (.vint ss) ∧
      dictGet c "action_size" = .ok (.vint ac) ∧
      dictGet c "actor" = .ok actorV ∧
      dictGet actorV "fc" = .ok fcV ∧
      listGet fcV 0 = .ok (.vint f1) ∧
      listGet fcV 1 = .ok (.vint f2) ∧
      0 ≤ ss ∧ 0 ≤ ac ∧ 0 ≤ f1 ∧ 0 ≤ f2 ∧
      seedGen seedV g0 = .ok g1 ∧
      p = actorFromDims ss.toNat f1.toNat f2.toNat ac.toNat g1 := by
  unfold Actor.build at h
  split at h
  next => exact (Except.noConfusion h)
  next seedV hseed =>
  split at h
  next => exact (Except.noConfusion h)
  next stateV hstate =>
  split at h
  next => exact (Except.noConfusion h)
  next actionV haction =>
  split at h
  next => exact (Except.noConfusion h)
  next actorV hactor =>
  split at h
  next => exact (Except.noConfusion h)
  next fcV hfc =>
  split at h
  next => exact (Except.noConfusion h)
  next fc1V hfc1 =>
  split at h
  next => exact (Except.noConfusion h)
  next fc2V hfc2 =>
  split at h
  next => exact (Except.noConfusion h)
  next g1 hg1 =>
  split at h
  next => exact (Except.noConfusion h)
  next fc1 g2 hlin1 =>
  split at h
  next => exact (Except.noConfusion h)
  next bc1 hbn1 =>
  split at h
  next => exact (Except.noConfusion h)
  next fc2 g3 hlin2 =>
  split at h
  next => exact (Except.noConfusion h)
  next bc2 hbn2 =>
  split at h
  next => exact (Except.noConfusion h)
  next fc3 g4 hlin3 =>
  obtain ⟨ss, f1, hsv, hf1v, hss, hf1, hq1⟩ := linearV_ok hlin1
  obtain ⟨f1b, hf1vb, _, hb1⟩ := batchNormV_ok hbn1
  obtain ⟨f1c, f2, hf1vc, hf2v, _, hf2, hq2⟩ := linearV_ok hlin2
  obtain ⟨f2b, hf2vb, _, hb2⟩ := batchNormV_ok hbn2
  obtain ⟨f2c, ac, hf2vc, hacv, _, hac, hq3⟩ := linearV_ok hlin3
  subst hsv
  subst hacv
  rw [hf1v] at hf1vb hf1vc
  rw [hf2v] at hf2vb hf2vc
  injection hf1vb with e1
  injection hf1vc with e2
  injection hf2vb with e3
  injection hf2vc with e4
  subst e1
  subst e2
  subst e3
  subst e4
  subst hf1v
  subst hf2v
  rw [Prod.ext_iff] at hq1 hq2 hq3
  obtain ⟨hc1, hg2⟩ := hq1
  obtain ⟨hc2, hg3⟩ := hq2
  obtain ⟨hc3, hg4⟩ := hq3
  dsimp only at hc1 hg2 hc2 hg3 hc3 hg4
  injection h with hp
  refine ⟨seedV, actorV, fcV, ss, ac, f1, f2, g1, hseed, hstate, haction, hactor,
    hfc, hfc1, hfc2, hss, hac, hf1, hf2, hg1, ?_⟩
  rw [← hp]
  simp only [actorFromDims]
  subst hc1 hc2 hc3 hg2 hg3 hg4 hb1 hb2
  rfl

/-- Dissecting a successful `Critic.__init__`. -/
lemma critic_build_ok {c : PyVal} {g0 : RNG} {p : Critic × RNG}
    (h : Critic.build c g0 = .ok p) :
    ∃ (seedV criticV fcV : PyVal) (ss ac f1 f2 : ℤ) (g1 : RNG),
      dictGet c "random_seed" = .ok seedV ∧
      dictGet c "state_size" = .ok (.vint ss) ∧
      dictGet c "action_size" = .ok (.vint ac) ∧
      dictGet c "critic" = .ok criticV ∧
      dictGet criticV "fc" = .ok fcV ∧
      listGet fcV 0 = .ok (.vint f1) ∧
      listGet fcV 1 = .ok (.vint f2) ∧
      0 ≤ ss ∧ 0 ≤ f1 ∧ 0 ≤ f2 ∧ 0 ≤ f1 + ac ∧
      seedGen seedV g0 = .ok g1 ∧
      p = criticFromDims ss.toNat f1.toNat f2.toNat (f1 + ac).toNat g1 := by
  unfold Critic.build at h
  split at h
  next => exact (Except.noConfusion h)
  next seedV hseed =>
  split at h
  next => exact (Except.noConfusion h)
  next stateV hstate =>
  split at h
  next => exact (Except.noConfusion h)
  next actionV haction =>
  split at h
  next => exact (Except.noConfusion h)
  next criticV hcritic =>
  split at h
  next => exact (Except.noConfusion h)
  next fcV hfc =>
  split at h
  next => exact (Except.noConfusion h)
  next fcs1V hfc1 =>
  split at h
  next => exact (Except.noConfusion h)
  next fc2V hfc2 =>
  split at h
  next => exact (Except.noConfusion h)
  next g1 hg1 =>
  split at h
  next => exact (Except.noConfusion h)
  next fcs1 g2 hlin1 =>
  split at h
  next => exact (Except.noConfusion h)
  next bc1 hbn1 =>
  split at h
  next => exact (Except.noConfusion h)
  next sumV hsum =>
  split at h
  next => exact (Except.noConfusion h)
  next fc2 g3 hlin2 =>
  split at h
  next => exact (Except.noConfusion h)
  next bc2 hbn2 =>
  split at h
  next => exact (Except.noConfusion h)
  next fc3 g4 hlin3 =>
  obtain ⟨ss, f1, hsv, hf1v, hss, hf1, hq1⟩ := linearV_ok hlin1
  obtain ⟨f1b, hf1vb, _, hb1⟩ := batchNormV_ok hbn1
  obtain ⟨sm, f2, hsmv, hf2v, _, hf2, hq2⟩ := linearV_ok hlin2
  obtain ⟨f2b, hf2vb, _, hb2⟩ := batchNormV_ok hbn2
  obtain ⟨f2c, one, hf2vc, honev, _, _, hq3⟩ := linearV_ok hlin3
  subst hsv
  rw [hf1v] at hf1vb
  injection hf1vb with e1
  subst e1
  subst hf1v
  rw [hf2v] at hf2vb hf2vc
  injection hf2vb with e3
  injection hf2vc with e4
  subst e3
  subst e4
  subst hf2v
  -- the action size comes out of the pyAdd step
  rcases haev : actionV with ac | _ | s | xs | es
  all_goals rw [haev] at haction hsum
  case vint =>
    unfold pyAdd at hsum
    injection hsum with hsum
    rw [← hsum] at hsmv
    injection hsmv with e5
    injection honev with e6
    rw [Prod.ext_iff] at hq1 hq2 hq3
    obtain ⟨hc1, hg2⟩ := hq1
    obtain ⟨hc2, hg3⟩ := hq2
    obtain ⟨hc3, hg4⟩ := hq3
    dsimp only at hc1 hg2 hc2 hg3 hc3 hg4
    injection h with hp
    refine ⟨seedV, criticV, fcV, ss, ac, f1, f2, g1, hseed, hstate, haction, hcritic,
      hfc, hfc1, hfc2, hss, hf1, hf2, by omega, hg1, ?_⟩
    rw [← hp]
    simp only [criticFromDims]
    rw [e5]
    subst hc1 hc2 hc3 hg2 hg3 hg4 hb1 hb2
    rw [← e6]
    rfl
  all_goals exact absurd hsum (by simp [pyAdd])

/-- A linear stage succeeds exactly on inputs with the declared trailing
dimension, preserving the batch size. -/
lemma linear_forward_ok (l : Linear) (x : Tensor2) (h : x.cols = l.inFeatures) :
    ∃ y, l.forward x = .ok y ∧ y.rows = x.rows ∧ y.cols = l.outFeatures ∧
      ∀ b j, y.entry b j =
        (∑ i ∈ Finset.range l.inFeatures, l.weight.entry j i * x.entry b i) + l.bias.entry j := by
  unfold Linear.forward
  rw [if_pos h]
  exact ⟨_, rfl, rfl, rfl, fun b j => rfl⟩

/-- A batch-norm stage succeeds on a matching feature dimension when the
mode is evaluation or the batch has at least two rows, preserving shape. -/
lemma batchNorm_forward_ok (bn : BatchNorm1d) (mode : Mode) (x : Tensor2)
    (h : x.cols = bn.numFeatures) (hm : mode = .eval ∨ 2 ≤ x.rows) :
    ∃ y bn2, bn.forward mode x = .ok (y, bn2) ∧ y.rows = x.rows ∧ y.cols = x.cols := by
  unfold BatchNorm1d.forward
  rw [if_pos h]
  rcases hm with hm | hrow
  · subst hm
    exact ⟨_, _, rfl, rfl, rfl⟩
  · cases mode
    case train =>
      rw [if_neg (by omega)]
      exact ⟨_, _, rfl, rfl, rfl⟩
    case eval => exact ⟨_, _, rfl, rfl, rfl⟩

/-- An evaluation-mode batch-norm pass returns the layer unchanged. -/
lemma batchNorm_forward_eval_frame (bn : BatchNorm1d) (x : Tensor2)
    {q : Tensor2 × BatchNorm1d} (h : bn.forward .eval x = .ok q) : q.2 = bn := by
  unfold BatchNorm1d.forward at h
  split at h
  · simp only [Except.ok.injEq] at h
    subst h
    rfl
  · exact Except.noConfusion h

/-- Concatenation along the feature axis succeeds on matching row counts. -/
lemma cat1_ok (x y : Tensor2) (h : y.rows = x.rows) :
    ∃ z, cat1 x y = .ok z ∧ z.rows = x.rows ∧ z.cols = x.cols + y.cols := by
  unfold cat1
  rw [if_pos h]
  exact ⟨_, rfl, rfl, rfl⟩

/-- Concatenation along the feature axis fails on mismatched row counts:
no broadcasting or truncation. -/
lemma cat1_err (x y : Tensor2) (h : y.rows ≠ x.rows) :
    cat1 x y = .error .dimMismatch := by
  unfold cat1
  rw [if_neg h]

/-- `Actor.forward` succeeds on a well-shaped network and input, and its
output has the batch's row count, the final stage's width, and entries
that are values of the hyperbolic tangent. -/
lemma actor_forward_ok (net : Actor) (mode : Mode) (x : Tensor2)
    (hb1 : net.bc1.numFeatures = net.fc1.outFeatures)
    (h2i : net.fc2.inFeatures = net.fc1.outFeatures)
    (hb2 : net.bc2.numFeatures = net.fc2.outFeatures)
    (h3i : net.fc3.inFeatures = net.fc2.outFeatures)
    (hc : x.cols = net.fc1.inFeatures)
    (hm : mode = .eval ∨ 2 ≤ x.rows) :
    ∃ y net2, Actor.forward net mode x = .ok (y, net2) ∧
      y.rows = x.rows ∧ y.cols = net.fc3.outFeatures ∧
      ∀ b j, ∃ t, y.entry b j = Real.tanh t := by
  obtain ⟨t1, e1, t1r, t1c, -⟩ := linear_forward_ok net.fc1 x hc
  obtain ⟨n1, bn1, e2, n1r, n1c⟩ := batchNorm_forward_ok net.bc1 mode t1
    (by rw [t1c, hb1]) (by rw [t1r]; exact hm)
  obtain ⟨t2, e3, t2r, t2c, -⟩ := linear_forward_ok net.fc2 (relu n1)
    (by simp only [relu]; rw [n1c, t1c, h2i])
  obtain ⟨n2, bn2, e4, n2r, n2c⟩ := batchNorm_forward_ok net.bc2 mode t2
    (by rw [t2c, hb2]) (by rw [t2r]; simp only [relu]; rw [n1r, t1r]; exact hm)
  obtain ⟨t3, e5, t3r, t3c, -⟩ := linear_forward_ok net.fc3 (relu n2)
    (by simp only [relu]; rw [n2c, t2c, h3i])
  refine ⟨tanhT t3, { net with bc1 := bn1, bc2 := bn2 }, ?_, ?_, ?_, ?_⟩
  · unfold Actor.forward
    rw [e1]
    simp only [e2, e3, e4, e5]
  · simp only [tanhT]
    rw [t3r]
    simp only [relu]
    rw [n2r, t2r]
    simp only [relu]
    rw [n1r, t1r]
  · simp only [tanhT]
    rw [t3c]
  · intro b j
    exact ⟨t3.entry b j, rfl⟩

/-- `Critic.forward` succeeds on a well-shaped network, state and action
with equal row counts, and its output is the bare final linear stage's
output, with the batch's row count and the final stage's width. -/
lemma critic_forward_ok (net : Critic) (mode : Mode) (s a : Tensor2)
    (hb1 : net.bc1.numFeatures = net.fcs1.outFeatures)
    (h2i : net.fc2.inFeatures = net.fcs1.outFeatures + a.cols)
    (hb2 : net.bc2.numFeatures = net.fc2.outFeatures)
    (h3i : net.fc3.inFeatures = net.fc2.outFeatures)
    (hc : s.cols = net.fcs1.inFeatures)
    (hr : a.rows = s.rows)
    (hm : mode = .eval ∨ 2 ≤ s.rows) :
    ∃ y net2, Critic.forward net mode s a = .ok (y, net2) ∧
      y.rows = s.rows ∧ y.cols = net.fc3.outFeatures ∧
      ∃ x2, net.fc3.forward x2 = .ok y := by
  obtain ⟨t1, e1, t1r, t1c, -⟩ := linear_forward_ok net.fcs1 s hc
  obtain ⟨n1, bn1, e2, n1r, n1c⟩ := batchNorm_forward_ok net.bc1 mode t1
    (by rw [t1c, hb1]) (by rw [t1r]; exact hm)
  obtain ⟨z, ez, zr, zc⟩ := cat1_ok (relu n1) a
    (by simp only [relu]; rw [n1r, t1r, hr])
  obtain ⟨t2, e3, t2r, t2c, -⟩ := linear_forward_ok net.fc2 z
    (by rw [zc]; simp only [relu]; rw [n1c, t1c, h2i])
  obtain ⟨n2, bn2, e4, n2r, n2c⟩ := batchNorm_forward_ok net.bc2 mode t2
    (by rw [t2c, hb2])
    (by rw [t2r, zr]; simp only [relu]; rw [n1r, t1r]; exact hm)
  obtain ⟨t3, e5, t3r, t3c, -⟩ := linear_forward_ok net.fc3 (relu n2)
    (by simp only [relu]; rw [n2c, t2c, h3i])
  refine ⟨t3, { net with bc1 := bn1, bc2 := bn2 }, ?_, ?_, ?_, relu n2, e5⟩
  · unfold Critic.forward
    rw [e1]
    simp only [e2, ez, e3, e4, e5]
  · rw [t3r]
    simp only [relu]
    rw [n2r, t2r, zr]
    simp only [relu]
    rw [n1r, t1r]
  · rw [t3c]

/-- `Critic.forward` on state and action batches with different row
counts fails at the concatenation with a dimension-mismatch error. -/
lemma Critic.forward_rows_err (net : Critic) (mode : Mode) (s a : Tensor2)
    (hb1 : net.bc1.numFeatures = net.fcs1.outFeatures)
    (hc : s.cols = net.fcs1.inFeatures)
    (hr : a.rows ≠ s.rows)
    (hm : mode = .eval ∨ 2 ≤ s.rows) :
    Critic.forward net mode s a = .error .dimMismatch := by
  obtain ⟨t1, e1, t1r, t1c, -⟩ := linear_forward_ok net.fcs1 s hc
  obtain ⟨n1, bn1, e2, n1r, n1c⟩ := batchNorm_forward_ok net.bc1 mode t1
    (by rw [t1c, hb1]) (by rw [t1r]; exact hm)
  have ez : cat1 (relu n1) a = .error .dimMismatch := by
    apply cat1_err
    simp only [relu]
    rw [n1r, t1r]
    exact hr
  unfold Critic.forward
  rw [e1]
  simp only [e2, ez]

/-- An evaluation-mode `Actor.forward` pass returns the network with all
its state — parameters and running statistics — unchanged. -/
lemma actor_forward_eval_frame (net : Actor) (x : Tensor2) {p : Tensor2 × Actor}
    (h : Actor.forward net .eval x = .ok p) : p.2 = net := by
  unfold Actor.forward at h
  split at h
  next => exact Except.noConfusion h
  next t1 e1 =>
  split at h
  next => exact Except.noConfusion h
  next n1 bn1 e2 =>
  split at h
  next => exact Except.noConfusion h
  next t2 e3 =>
  split at h
  next => exact Except.noConfusion h
  next n2 bn2 e4 =>
  split at h
  next => exact Except.noConfusion h
  next t3 e5 =>
  have f1 : bn1 = net.bc1 := batchNorm_forward_eval_frame net.bc1 t1 e2
  have f2 : bn2 = net.bc2 := batchNorm_forward_eval_frame net.bc2 t2 e4
  injection h with h
  rw [← h, f1, f2]

/-- An evaluation-mode `Critic.forward` pass returns the network with all
its state unchanged. -/
lemma critic_forward_eval_frame (net : Critic) (s a : Tensor2) {p : Tensor2 × Critic}
    (h : Critic.forward net .eval s a = .ok p) : p.2 = net := by
  unfold Critic.forward at h
  split at h
  next => exact Except.noConfusion h
  next t1 e1 =>
  split at h
  next => exact Except.noConfusion h
  next n1 bn1 e2 =>
  split at h
  next => exact Except.noConfusion h
  next z ez =>
  split at h
  next => exact Except.noConfusion h
  next t2 e3 =>
  split at h
  next => exact Except.noConfusion h
  next n2 bn2 e4 =>
  split at h
  next => exact Except.noConfusion h
  next t3 e5 =>
  have f1 : bn1 = net.bc1 := batchNorm_forward_eval_frame net.bc1 t1 e2
  have f2 : bn2 = net.bc2 := batchNorm_forward_eval_frame net.bc2 t2 e4
  injection h with h
  rw [← h, f1, f2]

lemma mkConfig_seed (ss ac : ℤ) (sv : PyVal) (f1 f2 : ℤ) :
    dictGet (mkConfig ss ac sv f1 f2) "random_seed" = .ok sv := rfl

lemma mkConfig_state (ss ac : ℤ) (sv : PyVal) (f1 f2 : ℤ) :
    dictGet (mkConfig ss ac sv f1 f2) "state_size" = .ok (.vint ss) := rfl

lemma mkConfig_action (ss ac : ℤ) (sv : PyVal) (f1 f2 : ℤ) :
    dictGet (mkConfig ss ac sv f1 f2) "action_size" = .ok (.vint ac) := rfl

lemma mkConfig_actor (ss ac : ℤ) (sv : PyVal) (f1 f2 : ℤ) :
    dictGet (mkConfig ss ac sv f1 f2) "actor"
      = .ok (.vdict [("fc", .vlist [.vint f1, .vint f2])]) := rfl

lemma mkConfig_critic (ss ac : ℤ) (sv : PyVal) (f1 f2 : ℤ) :
    dictGet (mkConfig ss ac sv f1 f2) "critic"
      = .ok (.vdict [("fc", .vlist [.vint f1, .vint f2])]) := rfl

lemma dictGet_fc (v : PyVal) : dictGet (.vdict [("fc", v)]) "fc" = .ok v := rfl

lemma listGet_pair0 (a b : PyVal) : listGet (.vlist [a, b]) 0 = .ok a := rfl

lemma listGet_pair1 (a b : PyVal) : listGet (.vlist [a, b]) 1 = .ok b := rfl

lemma seedGen_none (g : RNG) : seedGen .vnone g = .ok g := rfl

lemma pyAdd_int (m n : ℤ) : pyAdd (.vint m) (.vint n) = .ok (.vint (m + n)) := rfl

lemma linearV_nonneg (m n : ℤ) (g : RNG) (hm : 0 ≤ m) (hn : 0 ≤ n) :
    linearV (.vint m) (.vint n) g = .ok (linearNew m.toNat n.toNat g) := by
  show (if m < 0 ∨ n < 0 then (Except.error PyErr.runtimeError : Except PyErr (Linear × RNG))
    else .ok (linearNew m.toNat n.toNat g)) = .ok (linearNew m.toNat n.toNat g)
  rw [if_neg (by omega)]

lemma batchNormV_nonneg (n : ℤ) (hn : 0 ≤ n) :
    batchNormV (.vint n) = .ok (batchNormNew n.toNat) := by
  show (if n < 0 then (Except.error PyErr.runtimeError : Except PyErr BatchNorm1d)
    else .ok (batchNormNew n.toNat)) = .ok (batchNormNew n.toNat)
  rw [if_neg (by omega)]

/-- An `mkConfig` dict with an explicit `None` seed builds an Actor from
the ambient generator. -/
lemma actor_build_mkConfig_none (ss ac f1 f2 : ℤ) (g : RNG)
    (hss : 0 ≤ ss) (hac : 0 ≤ ac) (hf1 : 0 ≤ f1) (hf2 : 0 ≤ f2) :
    Actor.build (mkConfig ss ac .vnone f1 f2) g =
      .ok (actorFromDims ss.toNat f1.toNat f2.toNat ac.toNat g) := by
  simp only [Actor.build, mkConfig_seed, mkConfig_state, mkConfig_action, mkConfig_actor,
    dictGet_fc, listGet_pair0, listGet_pair1, seedGen_none,
    linearV_nonneg ss f1 g hss hf1, batchNormV_nonneg f1 hf1,
    linearV_nonneg f1 f2 _ hf1 hf2, batchNormV_nonneg f2 hf2,
    linearV_nonneg f2 ac _ hf2 hac, actorFromDims]

/-- An `mkConfig` dict with an explicit `None` seed builds a Critic from
the ambient generator. -/
lemma critic_build_mkConfig_none (ss ac f1 f2 : ℤ) (g : RNG)
    (hss : 0 ≤ ss) (hac : 0 ≤ ac) (hf1 : 0 ≤ f1) (hf2 : 0 ≤ f2) :
    Critic.build (mkConfig ss ac .vnone f1 f2) g =
      .ok (criticFromDims ss.toNat f1.toNat f2.toNat (f1 + ac).toNat g) := by
  simp only [Critic.build, mkConfig_seed, mkConfig_state, mkConfig_action, mkConfig_critic,
    dictGet_fc, listGet_pair0, listGet_pair1, seedGen_none, pyAdd_int,
    linearV_nonneg ss f1 g hss hf1, batchNormV_nonneg f1 hf1,
    linearV_nonneg (f1 + ac) f2 _ (by omega) hf2, batchNormV_nonneg f2 hf2,
    linearV_nonneg f2 1 _ hf2 (by omega), criticFromDims]
  rfl

/-- A successful `Actor.built` comes from a successful `Actor.build`. -/
lemma actor_built_some {c : PyVal} {g : RNG} {net : Actor}
    (h : Actor.built c g = some net) : ∃ g2 : RNG, Actor.build c g = .ok (net, g2) := by
  unfold Actor.built at h
  cases hb : Actor.build c g with
  | error e =>
    rw [hb] at h
    simp [Except.toOption] at h
  | ok p =>
    obtain ⟨n, g2⟩ := p
    rw [hb] at h
    simp only [Except.toOption, Option.map] at h
    injection h with h
    exact ⟨g2, by rw [h]⟩

/-- A successful `Critic.built` comes from a successful `Critic.build`. -/
lemma critic_built_some {c : PyVal} {g : RNG} {net : Critic}
    (h : Critic.built c g = some net) : ∃ g2 : RNG, Critic.build c g = .ok (net, g2) := by
  unfold Critic.built at h
  cases hb : Critic.build c g with
  | error e =>
    rw [hb] at h
    simp [Except.toOption] at h
  | ok p =>
    obtain ⟨n, g2⟩ := p
    rw [hb] at h
    simp only [Except.toOption, Option.map] at h
    injection h with h
    exact ⟨g2, by rw [h]⟩

/-- The stage widths of an Actor constructed from plain sizes. -/
lemma actorFromDims_wf (ss f1 f2 ac : ℕ) (g : RNG) :
    (actorFromDims ss f1 f2 ac g).1.fc1.inFeatures = ss ∧
    (actorFromDims ss f1 f2 ac g).1.fc1.outFeatures = f1 ∧
    (actorFromDims ss f1 f2 ac g).1.bc1.numFeatures = f1 ∧
    (actorFromDims ss f1 f2 ac g).1.fc2.inFeatures = f1 ∧
    (actorFromDims ss f1 f2 ac g).1.fc2.outFeatures = f2 ∧
    (actorFromDims ss f1 f2 ac g).1.bc2.numFeatures = f2 ∧
    (actorFromDims ss f1 f2 ac g).1.fc3.inFeatures = f2 ∧
    (actorFromDims ss f1 f2 ac g).1.fc3.outFeatures = ac :=
  ⟨rfl, rfl, rfl, rfl, rfl, rfl, rfl, rfl⟩

/-- The stage widths of a Critic constructed from plain sizes. -/
lemma criticFromDims_wf (ss f1 f2 cin : ℕ) (g : RNG) :
    (criticFromDims ss f1 f2 cin g).1.fcs1.inFeatures = ss ∧
    (criticFromDims ss f1 f2 cin g).1.fcs1.outFeatures = f1 ∧
    (criticFromDims ss f1 f2 cin g).1.bc1.numFeatures = f1 ∧
    (criticFromDims ss f1 f2 cin g).1.fc2.inFeatures = cin ∧
    (criticFromDims ss f1 f2 cin g).1.fc2.outFeatures = f2 ∧
    (criticFromDims ss f1 f2 cin g).1.bc2.numFeatures = f2 ∧
    (criticFromDims ss f1 f2 cin g).1.fc3.inFeatures = f2 ∧
    (criticFromDims ss f1 f2 cin g).1.fc3.outFeatures = 1 :=
  ⟨rfl, rfl, rfl, rfl, rfl, rfl, rfl, rfl⟩

/-- The final-stage weight entries of a constructed Actor are uniform
draws from ±3e-3. -/
lemma actorFromDims_fc3_entry (ss f1 f2 ac : ℕ) (g : RNG) (j i : ℕ) :
    ∃ (q : RNG) (k : ℕ), (actorFromDims ss f1 f2 ac g).1.fc3.weight.entry j i
      = udraw (-(3 / 1000)) (3 / 1000) (q.val k) :=
  ⟨_, _, rfl⟩

/-- The final-stage weight entries of a constructed Critic are uniform
draws from ±3e-3. -/
lemma criticFromDims_fc3_entry (ss f1 f2 cin : ℕ) (g : RNG) (j i : ℕ) :
    ∃ (q : RNG) (k : ℕ), (criticFromDims ss f1 f2 cin g).1.fc3.weight.entry j i
      = udraw (-(3 / 1000)) (3 / 1000) (q.val k) :=
  ⟨_, _, rfl⟩

end Lemmas

/-- The Actor the spec's concrete scenario constructs. -/
noncomputable def demoActor : Actor := (actorFromDims 4 8 8 2 (manualSeed 7)).1

/-- The Critic the spec's concrete scenario constructs (fc2's input width
is fcs1_units + action_size = 10). -/
noncomputable def demoCritic : Critic := (criticFromDims 4 8 8 10 (manualSeed 7)).1

/-- A batch of 3 zero state vectors of width 4. -/
def state34 : Tensor2 := ⟨3, 4, fun _ _ => 0⟩

/-- A batch of 5 zero state vectors of width 4. -/
def state54 : Tensor2 := ⟨5, 4, fun _ _ => 0⟩

/-- A batch of 5 zero action vectors of width 2. -/
def action52 : Tensor2 := ⟨5, 2, fun _ _ => 0⟩

/-- A batch of 4 zero action vectors of width 2 — the wrong batch size
next to `state54`. -/
def action42 : Tensor2 := ⟨4, 2, fun _ _ => 0⟩

/-- An otherwise valid configuration whose `random_seed` key is absent. -/
def noSeedConfig : PyVal :=
  .vdict [("state_size", .vint 4), ("action_size", .vint 2),
          ("actor", .vdict [("fc", .vlist [.vint 8, .vint 8])]),
          ("critic", .vdict [("fc", .vlist [.vint 8, .vint 8])])]

/-- Everything `Actor.__init__` demands of a configuration before any
layer is built: the five reads succeed with integer sizes, and the sizes
reaching `nn.Linear` / `nn.BatchNorm1d` are nonnegative. -/
def ActorConfigReadOk (c : PyVal) : Prop :=
  ∃ (seedV actorV fcV : PyVal) (ss ac f1 f2 : ℤ),
    dictGet c "random_seed" = .ok seedV ∧
    dictGet c "state_size" = .ok (.vint ss) ∧
    dictGet c "action_size" = .ok (.vint ac) ∧
    dictGet c "actor" = .ok actorV ∧
    dictGet actorV "fc" = .ok fcV ∧
    listGet fcV 0 = .ok (.vint f1) ∧
    listGet fcV 1 = .ok (.vint f2) ∧
    0 ≤ ss ∧ 0 ≤ ac ∧ 0 ≤ f1 ∧ 0 ≤ f2

/-- Everything `Critic.__init__` demands of a configuration.  Note the
action size appears only inside `fcs1_units+action_size`, so only that
sum — not the action size itself — must be nonnegative. -/
def CriticConfigReadOk (c : PyVal) : Prop :=
  ∃ (seedV criticV fcV : PyVal) (ss ac f1 f2 : ℤ),
    dictGet c "random_seed" = .ok seedV ∧
    dictGet c "state_size" = .ok (.vint ss) ∧
    dictGet c "action_size" = .ok (.vint ac) ∧
    dictGet c "critic" = .ok criticV ∧
    dictGet criticV "fc" = .ok fcV ∧
    listGet fcV 0 = .ok (.vint f1) ∧
    listGet fcV 1 = .ok (.vint f2) ∧
    0 ≤ ss ∧ 0 ≤ f1 ∧ 0 ≤ f2 ∧ 0 ≤ f1 + ac

section HelperEntryLemmas

/-- After `Actor.reset_parameters` the final-stage weight entries are
uniform draws from ±3e-3. -/
lemma reset_actor_fc3_entry (net : Actor) (g : RNG) (j i : ℕ) :
    ∃ (q : RNG) (k : ℕ), (Actor.reset_parameters net g).1.fc3.weight.entry j i
      = udraw (-(3 / 1000)) (3 / 1000) (q.val k) :=
  ⟨_, _, rfl⟩

/-- After `Critic.reset_parameters` the final-stage weight entries are
uniform draws from ±3e-3. -/
lemma reset_critic_fc3_entry (net : Critic) (g : RNG) (j i : ℕ) :
    ∃ (q : RNG) (k : ℕ), (Critic.reset_parameters net g).1.fc3.weight.entry j i
      = udraw (-(3 / 1000)) (3 / 1000) (q.val k) :=
  ⟨_, _, rfl⟩

end HelperEntryLemmas

/-- Claim C1: the spec says `hidden_init` returns (-1/√n, +1/√n) for the
layer's declared input width n.  The code computes the bound from
`weight.size()[0]`, which in torch's (out_features, in_features) weight
layout is the OUTPUT width: for the demo Actor's first stage
(4 inputs, 8 outputs) the helper returns (-1/√8, +1/√8), not the
(-1/√4, +1/√4) the claim requires — and 1/√8 < 1/√4, so the pairs
differ.  The variable is named `fan_in` in the source, so the code
contradicts its own naming and the spec's stated intent. -/
theorem hidden_init_uses_output_width :
    Actor.built demoConfig rng0 = some demoActor ∧
    demoActor.fc1.inFeatures = 4 ∧
    demoActor.fc1.outFeatures = 8 ∧
    hidden_init demoActor.fc1 = (-(1 / Real.sqrt 8), 1 / Real.sqrt 8) ∧
    1 / Real.sqrt 8 < 1 / Real.sqrt 4 := by
  refine ⟨rfl, rfl, rfl, ?_, ?_⟩
  · have hr : demoActor.fc1.weight.rows = 8 := rfl
    simp only [hidden_init]
    rw [hr]
    norm_num
  · have h4 : (0 : ℝ) < Real.sqrt 4 := Real.sqrt_pos.mpr (by norm_num)
    have h8 : Real.sqrt 4 < Real.sqrt 8 := Real.sqrt_lt_sqrt (by norm_num) (by norm_num)
    exact one_div_lt_one_div_of_lt h4 h8

/-- Claim C2, counterexample: a configuration with the non-positive
dimension state_size = 0 — malformed per the claim — nonetheless
constructs both networks successfully and silently. -/
theorem zero_dimension_accepted :
    dictGet (mkConfig 0 2 (.vint 7) 8 8) "state_size" = .ok (.vint 0) ∧
    (Actor.built (mkConfig 0 2 (.vint 7) 8 8) rng0).isSome = true ∧
    (Critic.built (mkConfig 0 2 (.vint 7) 8 8) rng0).isSome = true :=
  ⟨rfl, rfl, rfl⟩

/-- Claim C2, amended: construction succeeds only when every required key
is present and well typed, the fc sequence has at least two integer
entries, and the sizes reaching the layer constructors are nonnegative —
so missing keys, wrong types, negative dimensions and short fc sequences
fail fast at construction; zero dimensions, however, are accepted. -/
theorem construction_succeeds_only_on_wellformed_config :
    ∀ (c : PyVal) (g : RNG),
      (∀ net : Actor, Actor.built c g = some net → ActorConfigReadOk c) ∧
      (∀ net : Critic, Critic.built c g = some net → CriticConfigReadOk c) := by
  intro c g
  constructor
  · intro net h
    obtain ⟨g2, hb⟩ := actor_built_some h
    obtain ⟨seedV, actorV, fcV, ss, ac, f1, f2, g1, h1, h2, h3, h4, h5, h6, h7,
      h8, h9, h10, h11, -, -⟩ := actor_build_ok hb
    exact ⟨seedV, actorV, fcV, ss, ac, f1, f2, h1, h2, h3, h4, h5, h6, h7, h8, h9, h10, h11⟩
  · intro net h
    obtain ⟨g2, hb⟩ := critic_built_some h
    obtain ⟨seedV, criticV, fcV, ss, ac, f1, f2, g1, h1, h2, h3, h4, h5, h6, h7,
      h8, h9, h10, h11, -, -⟩ := critic_build_ok hb
    exact ⟨seedV, criticV, fcV, ss, ac, f1, f2, h1, h2, h3, h4, h5, h6, h7, h8, h9, h10, h11⟩

/-- Claim C2, amended, witness at the spec's demo configuration. -/
theorem construction_succeeds_only_on_wellformed_config_witness :
    Actor.built demoConfig rng0 = some demoActor ∧
    Critic.built demoConfig rng0 = some demoCritic ∧
    ActorConfigReadOk demoConfig ∧ CriticConfigReadOk demoConfig :=
  ⟨rfl, rfl,
   (construction_succeeds_only_on_wellformed_config demoConfig rng0).1 demoActor rfl,
   (construction_succeeds_only_on_wellformed_config demoConfig rng0).2 demoCritic rfl⟩

/-- Claim C3, counterexample: with the `random_seed` key absent (not
merely None), construction of either network fails with the missing-key
error — the first line of both constructors reads
`config["random_seed"]` unconditionally. -/
theorem absent_seed_key_raises :
    Actor.build noSeedConfig rng0 = .error (.keyError "random_seed") ∧
    Critic.build noSeedConfig rng0 = .error (.keyError "random_seed") :=
  ⟨rfl, rfl⟩

/-- Claim C3, amended: the seed is optional only as an explicit None
value.  If the `random_seed` lookup fails, construction fails with that
very error; if the key is present and None, construction succeeds (for
otherwise-valid sizes) on the non-deterministic path, consuming the
ambient generator rather than reseeding. -/
theorem seed_optional_only_as_explicit_none :
    (∀ (c : PyVal) (g : RNG) (e : PyErr), dictGet c "random_seed" = .error e →
      Actor.build c g = .error e ∧ Critic.build c g = .error e) ∧
    (∀ (ss ac f1 f2 : ℤ) (g : RNG), 0 ≤ ss → 0 ≤ ac → 0 ≤ f1 → 0 ≤ f2 →
      Actor.build (mkConfig ss ac .vnone f1 f2) g
          = .ok (actorFromDims ss.toNat f1.toNat f2.toNat ac.toNat g) ∧
      Critic.build (mkConfig ss ac .vnone f1 f2) g
          = .ok (criticFromDims ss.toNat f1.toNat f2.toNat (f1 + ac).toNat g)) := by
  constructor
  · intro c g e h
    constructor
    · unfold Actor.build
      rw [h]
    · unfold Critic.build
      rw [h]
  · intro ss ac f1 f2 g hss hac hf1 hf2
    exact ⟨actor_build_mkConfig_none ss ac f1 f2 g hss hac hf1 hf2,
           critic_build_mkConfig_none ss ac f1 f2 g hss hac hf1 hf2⟩

/-- Claim C3, amended, witness: the absent-key configuration fails with
KeyError, and the same sizes with an explicit None seed construct both
networks from the ambient generator. -/
theorem seed_optional_only_as_explicit_none_witness :
    Actor.build noSeedConfig rng0 = .error (.keyError "random_seed") ∧
    Actor.build (mkConfig 4 2 .vnone 8 8) rng0 = .ok (actorFromDims 4 8 8 2 rng0) ∧
    Critic.build (mkConfig 4 2 .vnone 8 8) rng0 = .ok (criticFromDims 4 8 8 10 rng0) := by
  refine ⟨(seed_optional_only_as_explicit_none.1 noSeedConfig rng0
    (.keyError "random_seed") rfl).1, ?_, ?_⟩
  · exact (seed_optional_only_as_explicit_none.2 4 2 8 8 rng0
      (by norm_num) (by norm_num) (by norm_num) (by norm_num)).1
  · exact (seed_optional_only_as_explicit_none.2 4 2 8 8 rng0
      (by norm_num) (by norm_num) (by norm_num) (by norm_num)).2

/-- Claim C4: a `Critic.forward` call whose state and action batches have
different row counts fails with a dimension-mismatch error at the
feature-axis concatenation — never broadcasting or truncating. -/
theorem critic_batch_mismatch_raises :
    ∀ (c : PyVal) (g : RNG) (net : Critic) (mode : Mode) (s a : Tensor2),
      Critic.built c g = some net →
      s.cols = net.fcs1.inFeatures →
      (mode = .eval ∨ 2 ≤ s.rows) →
      a.rows ≠ s.rows →
      Critic.forward net mode s a = .error .dimMismatch := by
  intro c g net mode s a hb hc hm hr
  obtain ⟨g2, hb2⟩ := critic_built_some hb
  obtain ⟨-, -, -, ss, ac, f1, f2, g1, -, -, -, -, -, -, -, -, -, -, -, -, hp⟩ :=
    critic_build_ok hb2
  have hnet : net = (criticFromDims ss.toNat f1.toNat f2.toNat (f1 + ac).toNat g1).1 :=
    congrArg Prod.fst hp
  subst hnet
  exact Critic.forward_rows_err _ mode s a rfl hc hr hm

/-- Claim C4, witness: the spec's concrete scenario — a (5,4) state batch
with a (4,2) action batch raises the dimension mismatch. -/
theorem critic_batch_mismatch_raises_witness :
    Critic.built demoConfig rng0 = some demoCritic ∧
    Critic.forward demoCritic .eval state54 action42 = .error .dimMismatch :=
  ⟨rfl, critic_batch_mismatch_raises demoConfig rng0 demoCritic .eval state54 action42
    rfl rfl (Or.inl rfl) (by decide)⟩

/-- Claim C5: when the configuration carries an integer seed, two
constructions of the same network class from the same configuration are
identical whatever the ambient generator state — `torch.manual_seed`
replaces the generator before any parameter is drawn. -/
theorem same_seed_same_construction :
    ∀ (c : PyVal) (sd : ℤ) (g1 g2 : RNG),
      dictGet c "random_seed" = .ok (.vint sd) →
      Actor.build c g1 = Actor.build c g2 ∧ Critic.build c g1 = Critic.build c g2 := by
  intro c sd g1 g2 h
  constructor
  · unfold Actor.build
    rw [h]
    simp only [seedGen]
  · unfold Critic.build
    rw [h]
    simp only [seedGen]

/-- Claim C5, witness: the demo configuration (seed 7) builds identically
from two different ambient generator states. -/
theorem same_seed_same_construction_witness :
    Actor.build demoConfig ⟨1, 11⟩ = Actor.build demoConfig ⟨2, 22⟩ ∧
    Critic.build demoConfig ⟨1, 11⟩ = Critic.build demoConfig ⟨2, 22⟩ :=
  same_seed_same_construction demoConfig 7 ⟨1, 11⟩ ⟨2, 22⟩ rfl

/-- Claim C6: on any constructed Actor and any state batch with the
declared trailing width (any magnitudes, batch ≥ 1, in evaluation mode
or a training batch of ≥ 2), the forward pass returns a
(batch, action_size) tensor every entry of which lies in [-1, 1],
because the final linear output passes elementwise through tanh. -/
theorem actor_forward_bounded :
    ∀ (c : PyVal) (g : RNG) (net : Actor) (mode : Mode) (x : Tensor2),
      Actor.built c g = some net →
      x.cols = net.fc1.inFeatures →
      1 ≤ x.rows →
      (mode = .eval ∨ 2 ≤ x.rows) →
      ∃ y net2, Actor.forward net mode x = .ok (y, net2) ∧
        y.rows = x.rows ∧ y.cols = net.fc3.outFeatures ∧
        ∀ b j, -1 ≤ y.entry b j ∧ y.entry b j ≤ 1 := by
  intro c g net mode x hb hc hrows hm
  obtain ⟨g2, hb2⟩ := actor_built_some hb
  obtain ⟨-, -, -, ss, ac, f1, f2, g1, -, -, -, -, -, -, -, -, -, -, -, -, hp⟩ :=
    actor_build_ok hb2
  have hnet : net = (actorFromDims ss.toNat f1.toNat f2.toNat ac.toNat g1).1 :=
    congrArg Prod.fst hp
  subst hnet
  obtain ⟨y, net2, hf, hyr, hyc, hent⟩ := actor_forward_ok _ mode x rfl rfl rfl rfl hc hm
  refine ⟨y, net2, hf, hyr, hyc, ?_⟩
  intro b j
  obtain ⟨t, ht⟩ := hent b j
  rw [ht]
  exact ⟨(abs_le.mp (abs_tanh_le_one t)).1, (abs_le.mp (abs_tanh_le_one t)).2⟩

/-- Claim C6, witness: the demo Actor on a batch of 3 zero state vectors
in evaluation mode. -/
theorem actor_forward_bounded_witness :
    Actor.built demoConfig rng0 = some demoActor ∧
    (∃ y net2, Actor.forward demoActor .eval state34 = .ok (y, net2) ∧
      y.rows = state34.rows ∧ y.cols = demoActor.fc3.outFeatures ∧
      ∀ b j, -1 ≤ y.entry b j ∧ y.entry b j ≤ 1) :=
  ⟨rfl, actor_forward_bounded demoConfig rng0 demoActor .eval state34 rfl rfl
    (by decide) (Or.inl rfl)⟩

/-- Claim C7: on any constructed Critic and matching (state, action)
batch pair, the forward pass returns a (batch, 1) tensor that is the
bare output of the final linear stage — no final nonlinearity — computed
by the pipeline linear, normalize, rectify, concatenate with the raw
action, linear, normalize, rectify, final linear. -/
theorem critic_forward_shape :
    ∀ (c : PyVal) (g : RNG) (net : Critic) (mode : Mode) (s a : Tensor2),
      Critic.built c g = some net →
      s.cols = net.fcs1.inFeatures →
      net.fc2.inFeatures = net.fcs1.outFeatures + a.cols →
      a.rows = s.rows →
      (mode = .eval ∨ 2 ≤ s.rows) →
      ∃ y net2, Critic.forward net mode s a = .ok (y, net2) ∧
        y.rows = s.rows ∧ y.cols = 1 ∧
        ∃ x2, net.fc3.forward x2 = .ok y := by
  intro c g net mode s a hb hc h2 hr hm
  obtain ⟨g2, hb2⟩ := critic_built_some hb
  obtain ⟨-, -, -, ss, ac, f1, f2, g1, -, -, -, -, -, -, -, -, -, -, -, -, hp⟩ :=
    critic_build_ok hb2
  have hnet : net = (criticFromDims ss.toNat f1.toNat f2.toNat (f1 + ac).toNat g1).1 :=
    congrArg Prod.fst hp
  subst hnet
  obtain ⟨y, net2, hf, hyr, hyc, hx2⟩ := critic_forward_ok _ mode s a rfl h2 rfl rfl hc hr hm
  exact ⟨y, net2, hf, hyr, hyc, hx2⟩

/-- Claim C7, witness: the spec's concrete scenario — (5,4) state and
(5,2) action produce a (5,1) output. -/
theorem critic_forward_shape_witness :
    Critic.built demoConfig rng0 = some demoCritic ∧
    (∃ y net2, Critic.forward demoCritic .eval state54 action52 = .ok (y, net2) ∧
      y.rows = state54.rows ∧ y.cols = 1 ∧
      ∃ x2, demoCritic.fc3.forward x2 = .ok y) :=
  ⟨rfl, critic_forward_shape demoConfig rng0 demoCritic .eval state54 action52
    rfl rfl rfl rfl (Or.inl rfl)⟩

/-- Claim C8: immediately after any successful construction, every
final-stage weight entry of the Actor (fc2 to action_size) and of the
Critic (fc2 to 1) lies in [-3e-3, 3e-3]. -/
theorem final_layer_weights_bounded :
    ∀ (cA cC : PyVal) (gA gC : RNG) (netA : Actor) (netC : Critic),
      Actor.built cA gA = some netA →
      Critic.built cC gC = some netC →
      (∀ j i, |netA.fc3.weight.entry j i| ≤ 3 / 1000) ∧
      (∀ j i, |netC.fc3.weight.entry j i| ≤ 3 / 1000) := by
  intro cA cC gA gC netA netC hA hC
  constructor
  · obtain ⟨g2, hb⟩ := actor_built_some hA
    obtain ⟨-, -, -, ss, ac, f1, f2, g1, -, -, -, -, -, -, -, -, -, -, -, -, hp⟩ :=
      actor_build_ok hb
    have hnet : netA = (actorFromDims ss.toNat f1.toNat f2.toNat ac.toNat g1).1 :=
      congrArg Prod.fst hp
    subst hnet
    intro j i
    obtain ⟨q, k, he⟩ := actorFromDims_fc3_entry ss.toNat f1.toNat f2.toNat ac.toNat g1 j i
    rw [he]
    exact abs_udraw_le _ _ (RNG.val_nonneg q k) (RNG.val_lt_one q k) (by norm_num)
  · obtain ⟨g2, hb⟩ := critic_built_some hC
    obtain ⟨-, -, -, ss, ac, f1, f2, g1, -, -, -, -, -, -, -, -, -, -, -, -, hp⟩ :=
      critic_build_ok hb
    have hnet : netC = (criticFromDims ss.toNat f1.toNat f2.toNat (f1 + ac).toNat g1).1 :=
      congrArg Prod.fst hp
    subst hnet
    intro j i
    obtain ⟨q, k, he⟩ :=
      criticFromDims_fc3_entry ss.toNat f1.toNat f2.toNat (f1 + ac).toNat g1 j i
    rw [he]
    exact abs_udraw_le _ _ (RNG.val_nonneg q k) (RNG.val_lt_one q k) (by norm_num)

/-- Claim C8, witness at the demo configuration. -/
theorem final_layer_weights_bounded_witness :
    Actor.built demoConfig rng0 = some demoActor ∧
    Critic.built demoConfig rng0 = some demoCritic ∧
    (∀ j i, |demoActor.fc3.weight.entry j i| ≤ 3 / 1000) ∧
    (∀ j i, |demoCritic.fc3.weight.entry j i| ≤ 3 / 1000) :=
  ⟨rfl, rfl,
   (final_layer_weights_bounded demoConfig demoConfig rng0 rng0 demoActor demoCritic rfl rfl).1,
   (final_layer_weights_bounded demoConfig demoConfig rng0 rng0 demoActor demoCritic rfl rfl).2⟩

/-- Claim C9: in evaluation mode a forward pass leaves the network — its
parameters and running statistics — unchanged, so a second consecutive
pass on the same input yields the very same result: first-then-second
equals first, for both Actor and Critic. -/
theorem eval_forward_idempotent :
    ∀ (netA : Actor) (x : Tensor2) (netC : Critic) (s a : Tensor2),
      ((Actor.forward netA .eval x).map Prod.snd
        = (Actor.forward netA .eval x).map (fun _ => netA)) ∧
      ((Actor.forward netA .eval x).bind (fun p => Actor.forward p.2 .eval x)
        = Actor.forward netA .eval x) ∧
      ((Critic.forward netC .eval s a).map Prod.snd
        = (Critic.forward netC .eval s a).map (fun _ => netC)) ∧
      ((Critic.forward netC .eval s a).bind (fun p => Critic.forward p.2 .eval s a)
        = Critic.forward netC .eval s a) := by
  intro netA x netC s a
  refine ⟨?_, ?_, ?_, ?_⟩
  · cases h : Actor.forward netA .eval x with
    | error e => rfl
    | ok p =>
      simp only [Except.map]
      rw [actor_forward_eval_frame netA x h]
  · cases h : Actor.forward netA .eval x with
    | error e => rfl
    | ok p =>
      simp only [Except.bind]
      rw [actor_forward_eval_frame netA x h]
      exact h
  · cases h : Critic.forward netC .eval s a with
    | error e => rfl
    | ok p =>
      simp only [Except.map]
      rw [critic_forward_eval_frame netC s a h]
  · cases h : Critic.forward netC .eval s a with
    | error e => rfl
    | ok p =>
      simp only [Except.bind]
      rw [critic_forward_eval_frame netC s a h]
      exact h

/-- Claim C10: `reset_parameters` refills only the three weight matrices:
the three bias vectors and both batch-norm stages are returned exactly as
they were (so biases keep their default initialization), the linear
widths are untouched, while the final stage's weights — but not its
bias — are redrawn from the narrow ±3e-3 range. -/
theorem reset_parameters_touches_only_weights :
    ∀ (netA : Actor) (gA : RNG) (netC : Critic) (gC : RNG),
      ((Actor.reset_parameters netA gA).1.fc1.bias = netA.fc1.bias ∧
       (Actor.reset_parameters netA gA).1.fc2.bias = netA.fc2.bias ∧
       (Actor.reset_parameters netA gA).1.fc3.bias = netA.fc3.bias ∧
       (Actor.reset_parameters netA gA).1.bc1 = netA.bc1 ∧
       (Actor.reset_parameters netA gA).1.bc2 = netA.bc2 ∧
       (Actor.reset_parameters netA gA).1.fc3.inFeatures = netA.fc3.inFeatures ∧
       (Actor.reset_parameters netA gA).1.fc3.outFeatures = netA.fc3.outFeatures ∧
       (∀ j i, |(Actor.reset_parameters netA gA).1.fc3.weight.entry j i| ≤ 3 / 1000)) ∧
      ((Critic.reset_parameters netC gC).1.fcs1.bias = netC.fcs1.bias ∧
       (Critic.reset_parameters netC gC).1.fc2.bias = netC.fc2.bias ∧
       (Critic.reset_parameters netC gC).1.fc3.bias = netC.fc3.bias ∧
       (Critic.reset_parameters netC gC).1.bc1 = netC.bc1 ∧
       (Critic.reset_parameters netC gC).1.bc2 = netC.bc2 ∧
       (Critic.reset_parameters netC gC).1.fc3.inFeatures = netC.fc3.inFeatures ∧
       (Critic.reset_parameters netC gC).1.fc3.outFeatures = netC.fc3.outFeatures ∧
       (∀ j i, |(Critic.reset_parameters netC gC).1.fc3.weight.entry j i| ≤ 3 / 1000)) := by
  intro netA gA netC gC
  refine ⟨⟨rfl, rfl, rfl, rfl, rfl, rfl, rfl, ?_⟩, ⟨rfl, rfl, rfl, rfl, rfl, rfl, rfl, ?_⟩⟩
  · intro j i
    obtain ⟨q, k, he⟩ := reset_actor_fc3_entry netA gA j i
    rw [he]
    exact abs_udraw_le _ _ (RNG.val_nonneg q k) (RNG.val_lt_one q k) (by norm_num)
  · intro j i
    obtain ⟨q, k, he⟩ := reset_critic_fc3_entry netC gC j i
    rw [he]
    exact abs_udraw_le _ _ (RNG.val_nonneg q k) (RNG.val_lt_one q k) (by norm_num)

end DDPG
